import Mathlib

/-!
Shallow embedding of the Cadence history engine (per-shard execution engine)
and proofs about its start-workflow reuse-policy state machine, activity RPC
handlers, query dispatch, long-poll routing, domain-failover commit callback
and start-request construction.

Pure decision logic is translated directly from the Go source
(service/history engine and common/util.go). Collaborator operations whose
bodies live outside the analysed sources (the mutable-state builder methods
and the persistence layer) are modelled from the specification; each such
definition carries a doc comment saying so. Machine integers (int32/int64 in
Go) are modelled as Int; the one arithmetic operation on client-supplied
machine integers that can overflow — the int32 sum of the retry expiration
interval and the first-decision backoff in CreateHistoryStartWorkflowRequest
— is modelled with explicit signed 32-bit wrap-around (int32Wrap). The
remaining translated decision logic performs only comparisons, or int64
arithmetic on event ids, versions and clock values that stay far from their
bounds on engine-reachable states, so no wrap is applied there.
-/

namespace Cadence

/-! ## Persistence constants

Workflow state and close-status enumerations from the persistence package.
The enumeration values are not defined under the analysed sources; the exact
numerals are irrelevant to every claim (only distinctness and case analysis
matter), and the values below follow the persistence package layout named by
the spec: state created/running/completed/zombie, close status
none/completed/failed/canceled/terminated/continued-as-new/timed-out.
-/

def WorkflowStateCreated : Int := 0

def WorkflowStateRunning : Int := 1

def WorkflowStateCompleted : Int := 2

def WorkflowStateZombie : Int := 3

def WorkflowCloseStatusNone : Int := 0

def WorkflowCloseStatusCompleted : Int := 1

def WorkflowCloseStatusFailed : Int := 2

def WorkflowCloseStatusCanceled : Int := 3

def WorkflowCloseStatusTerminated : Int := 4

def WorkflowCloseStatusContinuedAsNew : Int := 5

def WorkflowCloseStatusTimedOut : Int := 6

/-- Workflow-ID reuse policies (types.WorkflowIDReusePolicy). Values follow
the types package enumeration order; only distinctness matters. -/
def WorkflowIDReusePolicyAllowDuplicateFailedOnly : Int := 0

def WorkflowIDReusePolicyAllowDuplicate : Int := 1

def WorkflowIDReusePolicyRejectDuplicate : Int := 2

def WorkflowIDReusePolicyTerminateIfRunning : Int := 3

/-- common.FirstEventID: the event id of the first history event of a run. -/
def FirstEventID : Int := 1

/-- common.EmptyEventID: sentinel event id meaning `no event`; the engine
only ever compares against it, so only its distinctness from valid event ids
(which are at least FirstEventID) matters. -/
def EmptyEventID : Int := -23

/-! ## Error taxonomy

Engine-visible errors, one constructor per error kind the claims mention.
Sentinel errors (ErrStaleState, ErrConflict, ErrAlreadyCompleted and friends
from the workflow package) are singleton values in the source and carry no
payload here either.
-/

inductive EngineError where
  | workflowExecutionAlreadyStarted (message startRequestID runID : String)
  | internalService (message : String)
  | badRequest (message : String)
  | domainNotActive (failoverVersion : Int)
  | currentBranchChanged (currentBranchToken : List Nat)
  | concurrentStartRequest
  | alreadyCompleted
  | staleState
  | conflict
  | activityTaskNotFound
  | consistentQueryBufferExceeded
  | createAlreadyStarted (startRequestID runID : String)
  | other (tag : String)
  deriving DecidableEq, Repr

/-- True exactly on the WorkflowExecutionAlreadyStarted error kind. -/
def EngineError.isAlreadyStarted : EngineError → Bool
  | .workflowExecutionAlreadyStarted _ _ _ => true
  | _ => false

/-- A start-path result fails with WorkflowExecutionAlreadyStarted. -/
def failsAlreadyStarted (r : Except EngineError Unit) : Bool :=
  match r with
  | .error e => e.isAlreadyStarted
  | .ok _ => false

/-- A start-path result fails with InternalServiceError. -/
def failsInternalService (r : Except EngineError Unit) : Bool :=
  match r with
  | .error (.internalService _) => true
  | _ => false

/-! ## Workflow-ID reuse policy (startWorkflowHelper support) -/

/-- FailedWorkflowCloseState: the set of failed workflow close states used
for the start-workflow reuse policy, translated from the engine source. -/
def FailedWorkflowCloseState (closeState : Int) : Bool :=
  closeState = WorkflowCloseStatusFailed ||
  closeState = WorkflowCloseStatusCanceled ||
  closeState = WorkflowCloseStatusTerminated ||
  closeState = WorkflowCloseStatusTimedOut

/-- Substitute the first two %v verbs of a Go format string, mirroring the
fmt.Sprintf(msg, workflowID, runID) calls in getWorkflowAlreadyStartedError. -/
def sprintfVV (fmtStr a b : String) : String :=
  match fmtStr.splitOn "%v" with
  | [] => ""
  | [p0] => p0
  | [p0, p1] => p0 ++ a ++ p1
  | p0 :: p1 :: rest => p0 ++ a ++ p1 ++ b ++ String.intercalate "%v" rest

/-- getWorkflowAlreadyStartedError from the engine source. -/
def getWorkflowAlreadyStartedError
    (errMsg createRequestID workflowID runID : String) : EngineError :=
  .workflowExecutionAlreadyStarted (sprintfVV errMsg workflowID runID) createRequestID runID

/-- applyWorkflowIDReusePolicyHelper, translated branch for branch from the
engine source: prior state created/running always collides; completed prior
state consults the reuse policy; zombie or unknown prior state is an
internal error, as is an unknown policy value. -/
def applyWorkflowIDReusePolicyHelper
    (prevStartRequestID prevRunID : String)
    (prevState prevCloseState : Int)
    (workflowID : String)
    (wfIDReusePolicy : Int) : Except EngineError Unit :=
  if prevState = WorkflowStateCreated ∨ prevState = WorkflowStateRunning then
    .error (getWorkflowAlreadyStartedError
      "Workflow execution is already running. WorkflowId: %v, RunId: %v."
      prevStartRequestID workflowID prevRunID)
  else if prevState = WorkflowStateCompleted then
    if wfIDReusePolicy = WorkflowIDReusePolicyAllowDuplicateFailedOnly then
      if FailedWorkflowCloseState prevCloseState then
        .ok ()
      else
        .error (getWorkflowAlreadyStartedError
          "Workflow execution already finished successfully. WorkflowId: %v, RunId: %v. Workflow ID reuse policy: allow duplicate workflow ID if last run failed."
          prevStartRequestID workflowID prevRunID)
    else if wfIDReusePolicy = WorkflowIDReusePolicyAllowDuplicate ∨
        wfIDReusePolicy = WorkflowIDReusePolicyTerminateIfRunning then
      .ok ()
    else if wfIDReusePolicy = WorkflowIDReusePolicyRejectDuplicate then
      .error (getWorkflowAlreadyStartedError
        "Workflow execution already finished. WorkflowId: %v, RunId: %v. Workflow ID reuse policy: reject duplicate workflow ID."
        prevStartRequestID workflowID prevRunID)
    else
      .error (.internalService "Failed to process start workflow reuse policy.")
  else
    .error (.internalService
      ("Failed to process workflow, workflow has invalid state: " ++ toString prevState ++ "."))

/-! ## Mutable state model

The fields of a run's mutable state that the analysed handlers read or
write. History events are kept as a list; the pending-activity map is an
association list keyed by schedule id.
-/

inductive HistoryEvent where
  | workflowExecutionStarted
  | workflowExecutionSignaled (signalName input identity : String)
  | workflowExecutionTerminated (reason details identity : String)
  | activityTaskCompleted (scheduleID startedID : Int)
  deriving DecidableEq, Repr

structure ActivityInfo where
  scheduleID : Int
  startedID : Int
  attempt : Int
  cancelRequested : Bool
  details : String
  lastHeartBeatUpdatedTime : Int
  startedTime : Int
  taskList : String
  activityID : String
  deriving DecidableEq, Repr

structure MutableState where
  state : Int
  closeStatus : Int
  nextEventID : Int
  events : List HistoryEvent
  activityInfos : List ActivityInfo
  hasPendingDecision : Bool
  hasInFlightDecision : Bool
  bufferedQueryCount : Nat
  deriving DecidableEq, Repr

/-- Modelled from the spec: a run is running exactly when its workflow state
is created or running (close status is none iff state is created/running). -/
def MutableState.isWorkflowExecutionRunning (ms : MutableState) : Bool :=
  ms.state = WorkflowStateCreated || ms.state = WorkflowStateRunning

/-- GetActivityInfo: look up a pending activity by schedule id. -/
def MutableState.getActivityInfo (ms : MutableState) (scheduleID : Int) : Option ActivityInfo :=
  ms.activityInfos.find? (fun a => a.scheduleID = scheduleID)

/-- GetActivityByActivityID: look up a pending activity by activity id. -/
def MutableState.getActivityByActivityID (ms : MutableState) (activityID : String) : Option ActivityInfo :=
  ms.activityInfos.find? (fun a => a.activityID = activityID)

/-! ## Start-workflow state machine (startWorkflowHelper) -/

/-- The child-lock acquisition timeout constant (contextLockTimeout, 500 ms).
Times in the child-context model are in milliseconds. -/
def contextLockTimeout : Int := 500

/-- newChildContext from the engine source: the child context timeout is
contextLockTimeout, replaced by the remaining caller deadline only when that
remainder is strictly positive and strictly below contextLockTimeout. -/
def newChildContextTimeout (parentDeadline : Option Int) (now : Int) : Int :=
  match parentDeadline with
  | none => contextLockTimeout
  | some deadline =>
      let parentTimeout := deadline - now
      if 0 < parentTimeout ∧ parentTimeout < contextLockTimeout then parentTimeout
      else contextLockTimeout

/-- Error produced while acquiring the current-run lock. -/
inductive AcquireCurrentError where
  | deadlineExceeded
  | otherErr (e : EngineError)
  deriving DecidableEq, Repr

/-- The error handling of GetOrCreateCurrentWorkflowExecution inside
startWorkflowHelper: a context deadline-exceeded is rewritten to
ErrConcurrentStartRequest, every other acquisition error propagates. -/
def startLockAcquisitionError : AcquireCurrentError → EngineError
  | .deadlineExceeded => .concurrentStartRequest
  | .otherErr e => e

/-- The payload of the persistence WorkflowExecutionAlreadyStartedError
returned by CreateWorkflowExecution in brand-new mode. -/
structure PersistAlreadyStartedError where
  startRequestID : String
  runID : String
  state : Int
  closeStatus : Int
  lastWriteVersion : Int
  deriving DecidableEq, Repr

/-- shouldTerminateAndStart from the engine source. -/
def shouldTerminateAndStart (wfIDReusePolicy state : Int) : Bool :=
  wfIDReusePolicy = WorkflowIDReusePolicyTerminateIfRunning &&
    (state = WorkflowStateRunning || state = WorkflowStateCreated)

/-- What startWorkflowHelper does after CreateWorkflowExecution (brand-new
mode) fails with WorkflowExecutionAlreadyStartedError. returnSuccess ends
the call with the given run id and performs no further persistence
operation; terminateAndStart enters terminateAndStartWorkflow against the
prior run; retryCreateAsReuse re-attempts CreateWorkflowExecution in
workflow-id-reuse mode carrying the prior run id and last-write version. -/
inductive StartErrorOutcome where
  | returnSuccess (runID : String)
  | returnError (e : EngineError)
  | terminateAndStart (prevRunID : String)
  | retryCreateAsReuse (prevRunID : String) (prevLastWriteVersion : Int)
  deriving DecidableEq, Repr

/-- The already-started branch of startWorkflowHelper, translated from the
engine source: same request id is an idempotent success; a signal-with-start
propagates the persistence error; a prior last-write version above the new
current version is DomainNotActive; TerminateIfRunning against a
created/running prior run terminates and starts; otherwise the reuse policy
decides between failing and re-creating in workflow-id-reuse mode. -/
def handleStartCreationAlreadyStarted
    (requestID : String)
    (isSignalWithStart : Bool)
    (wfIDReusePolicy : Int)
    (curVersion : Int)
    (workflowID : String)
    (t : PersistAlreadyStartedError) : StartErrorOutcome :=
  if t.startRequestID = requestID then
    .returnSuccess t.runID
  else if isSignalWithStart then
    .returnError (.createAlreadyStarted t.startRequestID t.runID)
  else if curVersion < t.lastWriteVersion then
    .returnError (.domainNotActive t.lastWriteVersion)
  else if shouldTerminateAndStart wfIDReusePolicy t.state then
    .terminateAndStart t.runID
  else
    match applyWorkflowIDReusePolicyHelper
        t.startRequestID t.runID t.state t.closeStatus workflowID wfIDReusePolicy with
    | .error e => .returnError e
    | .ok _ => .retryCreateAsReuse t.runID t.lastWriteVersion

/-! ## Terminate-and-start (terminateAndStartWorkflow) -/

/-- Modelled from the spec: workflow.ConditionalRetryCount, the bound on the
conflict/stale reload-and-retry loops (the spec gives N at 5); the constant
is declared outside the analysed sources. -/
def ConditionalRetryCount : Nat := 5

/-- TerminateIfRunningReason from the engine source. -/
def TerminateIfRunningReason : String := "TerminateIfRunning Policy"

/-- getTerminateIfRunningDetails from the engine source; details is the
byte string of the rendered template, kept here as the String whose bytes it
is. -/
def getTerminateIfRunningDetails (newRunID : String) : String :=
  "New runID: " ++ newRunID

/-- Modelled from the spec: execution.IdentityHistoryService, the identity
the engine stamps on events it emits itself. -/
def IdentityHistoryService : String := "history-service"

/-- Modelled from the spec: execution.TerminateWorkflow appends a
WorkflowExecutionTerminated event carrying the given reason, details and
identity and closes the run with close status terminated. -/
def TerminateWorkflow (ms : MutableState) (reason details identity : String) : MutableState :=
  { ms with
    state := WorkflowStateCompleted
    closeStatus := WorkflowCloseStatusTerminated
    nextEventID := ms.nextEventID + 1
    events := ms.events ++ [.workflowExecutionTerminated reason details identity] }

/-- Outcome of one execution.TerminateWorkflow call as observed by the
terminate-and-start loop. -/
inductive TerminateCallResult where
  | ok
  | staleState
  | failed (e : EngineError)
  deriving DecidableEq, Repr

/-- Outcome of one UpdateWorkflowExecutionWithNewAsActive commit as observed
by the terminate-and-start loop. Errors while constructing the new mutable
state or its start events are folded into the failed constructor, since the
source returns them from the same position in the loop body. -/
inductive UpdateCallResult where
  | ok
  | conflict
  | failed (e : EngineError)
  deriving DecidableEq, Repr

/-- The environment one loop attempt runs against: what the terminate call
returns, what reloading the mutable state after a stale detection yields,
and what the atomic close-prior/create-new commit returns. -/
structure TerminateAttemptEnv where
  terminateResult : TerminateCallResult
  reloadResult : Except EngineError MutableState
  updateResult : UpdateCallResult

/-- Result of terminateAndStartWorkflow: the value returned to the caller
(run id of the new run on success) and the prior-run mutable state the
commit persisted, none when no commit happened. -/
structure TerminateAndStartResult where
  result : Except EngineError String
  committedPrior : Option MutableState

/-- The body of the UpdateWorkflowLoop of terminateAndStartWorkflow,
translated from the engine source. fuel counts the remaining iterations of
`for attempt := 0; attempt < ConditionalRetryCount; attempt++`, so fuel is
ConditionalRetryCount - attempt and fuel 0 is the loop falling through,
which the source follows with an unconditional success response. On a stale
terminate result the cached state is cleared and, except on the final
attempt, reloaded; on a conflicting commit the loop retries with the
in-memory state the terminate call already mutated (the source does not
reload on conflict). -/
def terminateAndStartLoop (newRunID : String) (env : Nat → TerminateAttemptEnv) :
    Nat → Nat → MutableState → TerminateAndStartResult
  | 0, _, _ => { result := .ok newRunID, committedPrior := none }
  | fuel + 1, attempt, ms =>
      if ms.isWorkflowExecutionRunning = false then
        { result := .error .alreadyCompleted, committedPrior := none }
      else
        match (env attempt).terminateResult with
        | .staleState =>
            if attempt ≠ ConditionalRetryCount - 1 then
              match (env attempt).reloadResult with
              | .error e => { result := .error e, committedPrior := none }
              | .ok ms2 => terminateAndStartLoop newRunID env fuel (attempt + 1) ms2
            else
              terminateAndStartLoop newRunID env fuel (attempt + 1) ms
        | .failed e => { result := .error e, committedPrior := none }
        | .ok =>
            let ms2 := TerminateWorkflow ms TerminateIfRunningReason
              (getTerminateIfRunningDetails newRunID) IdentityHistoryService
            match (env attempt).updateResult with
            | .conflict => terminateAndStartLoop newRunID env fuel (attempt + 1) ms2
            | .failed e => { result := .error e, committedPrior := none }
            | .ok => { result := .ok newRunID, committedPrior := some ms2 }

/-- terminateAndStartWorkflow: run the loop from attempt 0 over the loaded
prior-run mutable state. -/
def terminateAndStartWorkflow (newRunID : String) (env : Nat → TerminateAttemptEnv)
    (ms : MutableState) : TerminateAndStartResult :=
  terminateAndStartLoop newRunID env ConditionalRetryCount 0 ms

/-! ## Activity RPC handlers -/

/-- The deserialized task token fields the activity handlers read. -/
structure TaskToken where
  workflowID : String
  runID : String
  scheduleID : Int
  scheduleAttempt : Int
  activityID : String
  workflowType : String
  activityType : String
  deriving DecidableEq, Repr

/-- getScheduleID from the engine source: resolve a schedule id from an
activity id when the token lacks one. -/
def getScheduleID (activityID : String) (ms : MutableState) : Except EngineError Int :=
  if activityID = "" then
    .error (.badRequest "Neither ActivityID nor ScheduleID is provided")
  else
    match ms.getActivityByActivityID activityID with
    | none => .error (.badRequest "Cannot locate Activity ScheduleID")
    | some activityInfo => .ok activityInfo.scheduleID

/-- Modelled from the spec: AddActivityTaskCompletedEvent appends the
completion event and removes the activity from the pending-activity map. -/
def MutableState.addActivityTaskCompletedEvent
    (ms : MutableState) (scheduleID startedID : Int) : MutableState :=
  { ms with
    nextEventID := ms.nextEventID + 1
    events := ms.events ++ [.activityTaskCompleted scheduleID startedID]
    activityInfos := ms.activityInfos.filter (fun a => ¬ a.scheduleID = scheduleID) }

/-- The shared guard chain of the activity RPC actions, translated from the
engine source: not running is AlreadyCompleted; a missing activity with a
schedule id at or past the next-event id is the StaleState sentinel; a
missing or not-yet-started activity, or a token whose schedule attempt does
not match the current attempt, is ActivityTaskNotFound. On success it yields
the resolved schedule id and the activity info. -/
def activityGuard (token : TaskToken) (ms : MutableState) :
    Except EngineError (Int × ActivityInfo) :=
  if ms.isWorkflowExecutionRunning = false then
    .error .alreadyCompleted
  else
    match (if token.scheduleID = EmptyEventID
           then getScheduleID token.activityID ms
           else .ok token.scheduleID) with
    | .error e => .error e
    | .ok scheduleID =>
        match ms.getActivityInfo scheduleID with
        | none =>
            if scheduleID ≥ ms.nextEventID then .error .staleState
            else .error .activityTaskNotFound
        | some ai =>
            if ai.startedID = EmptyEventID ∨
                (token.scheduleID ≠ EmptyEventID ∧ token.scheduleAttempt ≠ ai.attempt) then
              .error .activityTaskNotFound
            else
              .ok (scheduleID, ai)

/-- The action body of RespondActivityTaskCompleted, translated from the
engine source. An error result means the mutation driver commits nothing,
so mutable state is unchanged. -/
def respondActivityTaskCompletedAction (token : TaskToken) (ms : MutableState) :
    Except EngineError MutableState :=
  match activityGuard token ms with
  | .error e => .error e
  | .ok (scheduleID, ai) => .ok (ms.addActivityTaskCompletedEvent scheduleID ai.startedID)

/-- Modelled from the spec: UpdateActivityProgress saves the reported
progress details and the last-heartbeat time on the activity, and nothing
else. -/
def MutableState.updateActivityProgress
    (ms : MutableState) (scheduleID : Int) (details : String) (now : Int) : MutableState :=
  { ms with
    activityInfos := ms.activityInfos.map (fun a =>
      if a.scheduleID = scheduleID
      then { a with details := details, lastHeartBeatUpdatedTime := now }
      else a) }

/-- The action body of RecordActivityTaskHeartbeat, translated from the
engine source: after the shared guard chain it reads the cancel-requested
flag, updates the activity progress, and appends no event. The Bool is the
CancelRequested field of the response. -/
def recordActivityTaskHeartbeatAction (token : TaskToken) (details : String) (now : Int)
    (ms : MutableState) : Except EngineError (MutableState × Bool) :=
  match activityGuard token ms with
  | .error e => .error e
  | .ok (scheduleID, ai) =>
      .ok (ms.updateActivityProgress scheduleID details now, ai.cancelRequested)

/-! ## Query dispatch (QueryWorkflow) -/

/-- Query consistency levels (types.QueryConsistencyLevel). -/
def QueryConsistencyLevelEventual : Int := 0

def QueryConsistencyLevelStrong : Int := 1

/-- The four direct-dispatch conditions of QueryWorkflow, translated from
the engine source. -/
def safeToDispatchDirectly (domainActive : Bool) (consistencyLevel : Int)
    (ms : MutableState) : Bool :=
  !domainActive ||
  !ms.isWorkflowExecutionRunning ||
  consistencyLevel = QueryConsistencyLevelEventual ||
  (!ms.hasPendingDecision && !ms.hasInFlightDecision)

/-- Where QueryWorkflow sends the query. -/
inductive QueryRoute where
  | direct
  | bufferExceeded
  | buffered
  deriving DecidableEq, Repr

/-- The direct-versus-buffered routing of QueryWorkflow, translated from the
engine source: dispatch directly when safe, otherwise fail with
ErrConsistentQueryBufferExceeded when the registry already holds at least
MaxBufferedQueryCount buffered queries, otherwise buffer the query. -/
def queryWorkflowRouting (domainActive : Bool) (consistencyLevel : Int)
    (ms : MutableState) (maxBufferedQueryCount : Nat) : QueryRoute :=
  if safeToDispatchDirectly domainActive consistencyLevel ms then
    .direct
  else if ms.bufferedQueryCount ≥ maxBufferedQueryCount then
    .bufferExceeded
  else
    .buffered

/-! ## Long-poll mutable state (getMutableStateOrPolling) -/

/-- The response fields of getMutableState the routing logic reads. Branch
tokens are byte strings; Go bytes.Equal treats nil and empty alike, so a nil
token is the empty list. -/
structure MutableStateSnapshot where
  runID : String
  nextEventID : Int
  isWorkflowRunning : Bool
  currentBranchToken : List Nat
  deriving DecidableEq, Repr

/-- What getMutableStateOrPolling does before any subscription. -/
inductive GetMutableStateRoute where
  | immediate (resp : MutableStateSnapshot)
  | err (e : EngineError)
  | poll (effectiveExpectedNextEventID : Int)
  deriving DecidableEq, Repr

/-- The pre-subscription routing of getMutableStateOrPolling, translated
from the engine source: a nil caller branch token is replaced by the current
one; a differing token is CurrentBranchChanged; an expected-next-event id of
0 defaults to FirstEventID; the call subscribes and long-polls only when
the effective expectation is at least the current next-event id and the
workflow is running, and otherwise returns the snapshot immediately. -/
def getMutableStatePrePollRoute (requestBranchToken : Option (List Nat))
    (expectedNextEventID : Int) (resp : MutableStateSnapshot) : GetMutableStateRoute :=
  let reqToken := match requestBranchToken with
    | none => resp.currentBranchToken
    | some t => t
  if reqToken ≠ resp.currentBranchToken then
    .err (.currentBranchChanged resp.currentBranchToken)
  else
    let effectiveExpected := if expectedNextEventID ≠ 0 then expectedNextEventID else FirstEventID
    if effectiveExpected ≥ resp.nextEventID ∧ resp.isWorkflowRunning = true then
      .poll effectiveExpected
    else
      .immediate resp

/-! ## Domain failover commit callback (registerDomainFailoverCallback) -/

/-- The domain-cache entry attributes the failover commit callback reads. -/
structure DomainCacheEntry where
  id : String
  isGlobalDomain : Bool
  notificationVersion : Int
  failoverNotificationVersion : Int
  failoverVersion : Int
  previousFailoverVersion : Int
  activeClusterName : String
  deriving DecidableEq, Repr

/-- A failover marker task destined for the shard replication queue. -/
structure FailoverMarkerTask where
  version : Int
  domainID : String
  deriving DecidableEq, Repr

/-- Modelled from the spec: common.InitialPreviousFailoverVersion, the
sentinel meaning the domain has recorded no previous failover; the engine
only compares against it. -/
def InitialPreviousFailoverVersion : Int := -1

/-- The marker condition of the commit callback, translated from the engine
source: a global domain with a fresh failover-notification version whose
active cluster moved away from this cluster while its previous failover
version is set and maps back to this cluster. -/
def failoverMarkerCondition (shardNotificationVersion : Int) (currentClusterName : String)
    (clusterNameForFailoverVersion : Int → String) (d : DomainCacheEntry) : Bool :=
  d.isGlobalDomain &&
  decide (d.failoverNotificationVersion ≥ shardNotificationVersion) &&
  decide (d.activeClusterName ≠ currentClusterName) &&
  decide (d.previousFailoverVersion ≠ InitialPreviousFailoverVersion) &&
  decide (clusterNameForFailoverVersion d.previousFailoverVersion = currentClusterName)

/-- The failover-marker tasks the commit callback constructs, in batch
order. -/
def buildFailoverMarkerTasks (shardNotificationVersion : Int) (currentClusterName : String)
    (clusterNameForFailoverVersion : Int → String)
    (nextDomains : List DomainCacheEntry) : List FailoverMarkerTask :=
  nextDomains.filterMap (fun d =>
    if failoverMarkerCondition shardNotificationVersion currentClusterName
        clusterNameForFailoverVersion d
    then some { version := d.failoverVersion, domainID := d.id }
    else none)

/-- What the commit callback leaves behind: the marker tasks it submitted
to the replication queue and the shard domain-notification version it wrote,
none when it returned without advancing. -/
structure FailoverCommitOutcome where
  markers : List FailoverMarkerTask
  newShardNotificationVersion : Option Int
  deriving DecidableEq, Repr

/-- The commit phase of registerDomainFailoverCallback, translated from the
engine source: an empty batch returns at once; marker tasks are built by
failoverMarkerCondition; when there are marker tasks and submitting them to
the replication queue fails, the callback returns without advancing the
shard domain-notification version; otherwise it updates that version to the
last changed domain's notification version plus one. The FailoverDomain and
fake-task notifications touch no state this model tracks. -/
def domainFailoverCommitCallback (shardNotificationVersion : Int)
    (currentClusterName : String) (clusterNameForFailoverVersion : Int → String)
    (replicateSucceeds : Bool)
    (nextDomains : List DomainCacheEntry) : FailoverCommitOutcome :=
  match nextDomains.getLast? with
  | none => { markers := [], newShardNotificationVersion := none }
  | some lastDomain =>
      let markers := buildFailoverMarkerTasks shardNotificationVersion currentClusterName
        clusterNameForFailoverVersion nextDomains
      if markers.length > 0 ∧ replicateSucceeds = false then
        { markers := markers, newShardNotificationVersion := none }
      else
        { markers := markers
          newShardNotificationVersion := some (lastDomain.notificationVersion + 1) }

/-! ## Start-request construction (common.CreateHistoryStartWorkflowRequest) -/

/-- ErrDelayStartSeconds from common/util.go. -/
def ErrDelayStartSeconds : EngineError :=
  .badRequest "Conflicting inputs: both DelayStartSeconds and Cron schedule is set"

/-- Go time.Time.Round(time.Millisecond) on a UnixNano value: round to the
nearest multiple of one million nanoseconds, halves away from zero. -/
def roundToMillisecond (t : Int) : Int :=
  if t ≥ 0 then ((t + 500000) / 1000000) * 1000000
  else -(((-t + 500000) / 1000000) * 1000000)

/-- The fields of the history start request that
CreateHistoryStartWorkflowRequest computes. -/
structure HistoryStartRequestFields where
  firstDecisionTaskBackoffSeconds : Int
  expirationTimestamp : Option Int
  deriving DecidableEq, Repr

/-- Signed 32-bit wrap-around: the value a Go int32 operation leaves in the
register, as an Int in [-2^31, 2^31). -/
def int32Wrap (x : Int) : Int :=
  (x + 2147483648) % 4294967296 - 2147483648

/-- CreateHistoryStartWorkflowRequest, translated from common/util.go. The
cron first-decision backoff computed by
backoff.GetBackoffForNextScheduleInSeconds (declared outside the analysed
sources, and nonnegative) enters as the cronBackoffSeconds argument; the
retry policy enters as its expiration interval, none when the request has
no retry policy. Both the expiration interval and the backoff are Go int32
values under no upper bound from validation, and their sum
expirationInSeconds is a Go int32 addition, so it wraps at 2^31; the
subsequent conversion to a nanosecond duration and the time addition are
int64 and cannot overflow on int32-ranged seconds. -/
def createHistoryStartWorkflowRequest (delayStartSeconds cronBackoffSeconds : Int)
    (retryExpirationIntervalSeconds : Option Int)
    (nowUnixNano : Int) : Except EngineError HistoryStartRequestFields :=
  let firstDecisionTaskBackoffSeconds := cronBackoffSeconds
  if delayStartSeconds > 0 ∧ firstDecisionTaskBackoffSeconds > 0 then
    .error ErrDelayStartSeconds
  else
    let firstDecisionTaskBackoffSeconds :=
      if delayStartSeconds > 0 then delayStartSeconds else firstDecisionTaskBackoffSeconds
    let expirationTimestamp :=
      match retryExpirationIntervalSeconds with
      | none => none
      | some expirationInterval =>
          if expirationInterval > 0 then
            some (roundToMillisecond (nowUnixNano +
              int32Wrap (expirationInterval + firstDecisionTaskBackoffSeconds) * 1000000000))
          else none
    .ok { firstDecisionTaskBackoffSeconds := firstDecisionTaskBackoffSeconds
          expirationTimestamp := expirationTimestamp }

/-! ## Claims -/

/-- Claim C1: when a Start fails with AlreadyStarted under a different
request id, the reuse policy is applied against the prior run: a created or
running prior state fails with WorkflowExecutionAlreadyStarted; a completed
prior state is accepted by AllowDuplicate, accepted by
AllowDuplicateFailedOnly exactly when the prior close status is failed,
canceled, terminated or timed-out (and otherwise fails with
WorkflowExecutionAlreadyStarted), and always fails with
WorkflowExecutionAlreadyStarted under RejectDuplicate; a zombie or unknown
prior state fails with InternalServiceError. The last conjunct ties the
helper to the start path: outside the terminate-and-start branch the
already-started handler fails exactly when the helper fails and otherwise
re-creates the run in workflow-id-reuse mode. -/
theorem claim_C1_reuse_policy
    (prevStartRequestID prevRunID : String) (prevState prevCloseState : Int)
    (workflowID : String) (policy : Int) :
    ((prevState = WorkflowStateCreated ∨ prevState = WorkflowStateRunning) →
      failsAlreadyStarted (applyWorkflowIDReusePolicyHelper
        prevStartRequestID prevRunID prevState prevCloseState workflowID policy) = true) ∧
    (prevState = WorkflowStateCompleted →
      (policy = WorkflowIDReusePolicyAllowDuplicate →
        applyWorkflowIDReusePolicyHelper
          prevStartRequestID prevRunID prevState prevCloseState workflowID policy = .ok ()) ∧
      (policy = WorkflowIDReusePolicyAllowDuplicateFailedOnly →
        ((applyWorkflowIDReusePolicyHelper
            prevStartRequestID prevRunID prevState prevCloseState workflowID policy = .ok ()) ↔
          (prevCloseState = WorkflowCloseStatusFailed ∨
           prevCloseState = WorkflowCloseStatusCanceled ∨
           prevCloseState = WorkflowCloseStatusTerminated ∨
           prevCloseState = WorkflowCloseStatusTimedOut)) ∧
        (FailedWorkflowCloseState prevCloseState = false →
          failsAlreadyStarted (applyWorkflowIDReusePolicyHelper
            prevStartRequestID prevRunID prevState prevCloseState workflowID policy) = true)) ∧
      (policy = WorkflowIDReusePolicyRejectDuplicate →
        failsAlreadyStarted (applyWorkflowIDReusePolicyHelper
          prevStartRequestID prevRunID prevState prevCloseState workflowID policy) = true)) ∧
    (prevState ≠ WorkflowStateCreated → prevState ≠ WorkflowStateRunning →
     prevState ≠ WorkflowStateCompleted →
      failsInternalService (applyWorkflowIDReusePolicyHelper
        prevStartRequestID prevRunID prevState prevCloseState workflowID policy) = true) ∧
    (∀ (requestID : String) (curVersion : Int) (t : PersistAlreadyStartedError),
      t.startRequestID ≠ requestID →
      ¬ curVersion < t.lastWriteVersion →
      shouldTerminateAndStart policy t.state = false →
      handleStartCreationAlreadyStarted requestID false policy curVersion workflowID t =
        match applyWorkflowIDReusePolicyHelper
            t.startRequestID t.runID t.state t.closeStatus workflowID policy with
        | .error e => .returnError e
        | .ok _ => .retryCreateAsReuse t.runID t.lastWriteVersion) := by
  refine ⟨?_, ?_, ?_, ?_⟩
  · intro h
    simp only [applyWorkflowIDReusePolicyHelper, if_pos h]
    rfl
  · intro hc
    subst hc
    refine ⟨?_, ?_, ?_⟩
    · intro hp
      subst hp
      rfl
    · intro hp
      subst hp
      have hiff : FailedWorkflowCloseState prevCloseState = true ↔
          (prevCloseState = WorkflowCloseStatusFailed ∨
           prevCloseState = WorkflowCloseStatusCanceled ∨
           prevCloseState = WorkflowCloseStatusTerminated ∨
           prevCloseState = WorkflowCloseStatusTimedOut) := by
        simp only [FailedWorkflowCloseState, Bool.or_eq_true, decide_eq_true_eq]
        tauto
      have hred : applyWorkflowIDReusePolicyHelper prevStartRequestID prevRunID
          WorkflowStateCompleted prevCloseState workflowID
          WorkflowIDReusePolicyAllowDuplicateFailedOnly =
          (if FailedWorkflowCloseState prevCloseState then (.ok () : Except EngineError Unit)
           else .error (getWorkflowAlreadyStartedError
            "Workflow execution already finished successfully. WorkflowId: %v, RunId: %v. Workflow ID reuse policy: allow duplicate workflow ID if last run failed."
            prevStartRequestID workflowID prevRunID)) := rfl
      constructor
      · rw [hred]
        by_cases hf : FailedWorkflowCloseState prevCloseState = true
        · simp [hf, hiff.mp hf]
        · have hnd := fun hd => hf (hiff.mpr hd)
          simp only [if_neg hf]
          constructor
          · intro habs
            exact absurd habs (by simp)
          · intro hd
            exact absurd hd hnd
      · intro hf
        rw [hred, if_neg (by simp [hf])]
        rfl
    · intro hp
      subst hp
      rfl
  · intro h0 h1 h2
    simp only [applyWorkflowIDReusePolicyHelper]
    rw [if_neg (by tauto), if_neg h2]
    rfl
  · intro requestID curVersion t hreq hver hterm
    simp only [handleStartCreationAlreadyStarted, if_neg hreq, if_neg hver, hterm,
      Bool.false_eq_true, if_false]

/-- Claim C1 witness: a completed prior run with close status failed is
accepted under AllowDuplicateFailedOnly. -/
theorem claim_C1_witness :
    applyWorkflowIDReusePolicyHelper "req-a" "run-p" 2 2 "wf" 0 = .ok () :=
  (((claim_C1_reuse_policy "req-a" "run-p" 2 2 "wf" 0).2.1 rfl).2.1 rfl).1.mpr (Or.inl rfl)

/-- Claim C2: a Start whose CreateWorkflowExecution fails with
AlreadyStarted carrying the start request id of the request itself returns
success with the prior run id; the outcome is neither a terminate-and-start
nor a second creation, so no new run and no history events are produced. -/
theorem claim_C2_idempotent_start (requestID : String) (isSignalWithStart : Bool)
    (policy curVersion : Int) (workflowID : String) (t : PersistAlreadyStartedError)
    (hreq : t.startRequestID = requestID) :
    handleStartCreationAlreadyStarted requestID isSignalWithStart policy curVersion workflowID t
      = .returnSuccess t.runID ∧
    (∀ r, handleStartCreationAlreadyStarted requestID isSignalWithStart policy curVersion
      workflowID t ≠ .terminateAndStart r) ∧
    (∀ r v, handleStartCreationAlreadyStarted requestID isSignalWithStart policy curVersion
      workflowID t ≠ .retryCreateAsReuse r v) := by
  refine ⟨by simp [handleStartCreationAlreadyStarted, hreq], ?_, ?_⟩ <;>
    simp [handleStartCreationAlreadyStarted, hreq]

/-- Claim C2 witness: a concrete duplicate-request-id Start returns the
prior run id. -/
theorem claim_C2_witness :
    handleStartCreationAlreadyStarted "req-1" false WorkflowIDReusePolicyAllowDuplicate 0 "wf"
      { startRequestID := "req-1", runID := "run-0", state := 1, closeStatus := 0,
        lastWriteVersion := 0 } = .returnSuccess "run-0" :=
  (claim_C2_idempotent_start "req-1" false WorkflowIDReusePolicyAllowDuplicate 0 "wf" _ rfl).1

/-- Claim C4 counterexample: with the caller deadline already elapsed
(remaining time 0) the child timeout is the full 500 ms, not the minimum of
the remaining deadline and 500 ms. -/
theorem claim_C4_counterexample :
    newChildContextTimeout (some 100) 100 ≠ min ((100 : Int) - 100) contextLockTimeout := by
  decide

/-- Claim C4 (amended): the current-run lock is acquired under a child
timeout equal to the minimum of the caller's remaining deadline and 500 ms
whenever that remaining deadline is positive; with no caller deadline, or a
deadline already elapsed, the child timeout is the full 500 ms; a
deadline-exceeded acquisition fails with ConcurrentStartRequest and any
other acquisition error propagates unchanged. -/
theorem claim_C4_child_lock_timeout (deadline now : Int) :
    (0 < deadline - now →
      newChildContextTimeout (some deadline) now = min (deadline - now) contextLockTimeout) ∧
    (deadline - now ≤ 0 → newChildContextTimeout (some deadline) now = contextLockTimeout) ∧
    newChildContextTimeout none now = contextLockTimeout ∧
    startLockAcquisitionError .deadlineExceeded = .concurrentStartRequest ∧
    (∀ e : EngineError, startLockAcquisitionError (.otherErr e) = e) := by
  refine ⟨?_, ?_, rfl, rfl, fun e => rfl⟩ <;>
  · intro h
    simp only [newChildContextTimeout, contextLockTimeout] at *
    split_ifs with hc <;> omega

/-- Claim C4 witness: a caller with 200 ms remaining gets a 200 ms child
timeout. -/
theorem claim_C4_witness :
    (0 : Int) < 300 - 100 ∧
    newChildContextTimeout (some 300) 100 = min ((300 : Int) - 100) contextLockTimeout :=
  ⟨by decide, (claim_C4_child_lock_timeout 300 100).1 (by decide)⟩

/-- Every prior-run mutable state the terminate-and-start loop commits is
some loaded state closed by TerminateWorkflow with the TerminateIfRunning
reason and the new-run-id details. -/
lemma terminateAndStartLoop_committedPrior (newRunID : String)
    (env : Nat → TerminateAttemptEnv) :
    ∀ (fuel attempt : Nat) (ms p : MutableState),
      (terminateAndStartLoop newRunID env fuel attempt ms).committedPrior = some p →
      ∃ ms0, p = TerminateWorkflow ms0 TerminateIfRunningReason
        (getTerminateIfRunningDetails newRunID) IdentityHistoryService := by
  intro fuel
  induction fuel with
  | zero =>
      intro attempt ms p h
      simp [terminateAndStartLoop] at h
  | succ n ih =>
      intro attempt ms p h
      rw [terminateAndStartLoop] at h
      by_cases hrun : ms.isWorkflowExecutionRunning = false
      · rw [if_pos hrun] at h
        simp at h
      · rw [if_neg hrun] at h
        rcases hterm : (env attempt).terminateResult with _ | _ | e <;> rw [hterm] at h
        · rcases hupd : (env attempt).updateResult with _ | _ | e2 <;>
            simp only [hupd] at h
          · simp only [Option.some.injEq] at h
            exact ⟨ms, h.symm⟩
          · exact ih (attempt + 1) _ p h
          · simp at h
        · by_cases hlast : attempt ≠ ConditionalRetryCount - 1
          · rw [if_pos hlast] at h
            rcases hre : (env attempt).reloadResult with e2 | ms2 <;> rw [hre] at h
            · simp at h
            · exact ih (attempt + 1) ms2 p h
          · rw [if_neg hlast] at h
            exact ih (attempt + 1) ms p h
        · simp at h

/-- The terminate-and-start loop consults only the attempts its fuel
allows: environments agreeing on those attempts produce identical runs. -/
lemma terminateAndStartLoop_env_agree (newRunID : String)
    (env env' : Nat → TerminateAttemptEnv) :
    ∀ (fuel attempt : Nat) (ms : MutableState),
      (∀ i, attempt ≤ i → i < attempt + fuel → env i = env' i) →
      terminateAndStartLoop newRunID env fuel attempt ms =
        terminateAndStartLoop newRunID env' fuel attempt ms := by
  intro fuel
  induction fuel with
  | zero =>
      intro attempt ms hag
      rfl
  | succ n ih =>
      intro attempt ms hag
      have hcur : env attempt = env' attempt :=
        hag attempt le_rfl (by omega)
      have hnext : ∀ i, attempt + 1 ≤ i → i < attempt + 1 + n → env i = env' i := by
        intro i h1 h2
        exact hag i (by omega) (by omega)
      rw [terminateAndStartLoop, terminateAndStartLoop, hcur]
      by_cases hrun : ms.isWorkflowExecutionRunning = false
      · rw [if_pos hrun, if_pos hrun]
      · rw [if_neg hrun, if_neg hrun]
        rcases hterm : (env' attempt).terminateResult with _ | _ | e
        · rcases hupd : (env' attempt).updateResult with _ | _ | e2
          · rfl
          · exact ih (attempt + 1) _ hnext
          · rfl
        · by_cases hlast : attempt ≠ ConditionalRetryCount - 1
          · rw [if_pos hlast, if_pos hlast]
            rcases hre : (env' attempt).reloadResult with e2 | ms2
            · rfl
            · exact ih (attempt + 1) ms2 hnext
          · rw [if_neg hlast, if_neg hlast]
            exact ih (attempt + 1) ms hnext
        · rfl

/-- A running prior-run mutable state used to exercise the
terminate-and-start loop. -/
def msRunningC3 : MutableState :=
  { state := WorkflowStateRunning, closeStatus := WorkflowCloseStatusNone, nextEventID := 5,
    events := [.workflowExecutionStarted], activityInfos := [], hasPendingDecision := true,
    hasInFlightDecision := false, bufferedQueryCount := 0 }

/-- An attempt environment in which every TerminateWorkflow call reports
stale state and every reload returns the same running state. -/
def envStaleC3 : Nat → TerminateAttemptEnv :=
  fun _ => { terminateResult := .staleState, reloadResult := .ok msRunningC3,
             updateResult := .ok }

/-- Claim C3 counterexample: when every attempt of the loop reports stale
state, the loop exhausts its ConditionalRetryCount attempts and the source
falls through to an unconditional success response carrying the new run id,
with no terminate-and-start transaction committed — so a successful Start
exists after which the prior run's close status is not terminated. -/
theorem claim_C3_counterexample :
    (terminateAndStartWorkflow "run-new" envStaleC3 msRunningC3).result = .ok "run-new" ∧
    (terminateAndStartWorkflow "run-new" envStaleC3 msRunningC3).committedPrior = none :=
  ⟨rfl, rfl⟩

/-- Claim C3 (amended): under TerminateIfRunning, the terminate-and-start
path is taken exactly when the prior run's state is created or running
(given a different request id, a plain Start, and no newer prior
last-write version); whenever the terminate-and-start transaction commits,
the committed prior-run state has close status terminated and its last
event is WorkflowExecutionTerminated with reason "TerminateIfRunning
Policy" and details exactly the bytes of "New runID: <new run id>"; the
loop consults at most ConditionalRetryCount attempts, retrying on conflict
and on stale state — but if every attempt is consumed this way the call
returns success without committing the termination (see the
counterexample), so the terminated close status is guaranteed only when a
commit happened. -/
theorem claim_C3_terminate_if_running :
    (∀ (requestID workflowID : String) (policy curVersion : Int)
        (t : PersistAlreadyStartedError),
      t.startRequestID ≠ requestID →
      ¬ curVersion < t.lastWriteVersion →
      (handleStartCreationAlreadyStarted requestID false policy curVersion workflowID t =
          .terminateAndStart t.runID ↔
        (policy = WorkflowIDReusePolicyTerminateIfRunning ∧
          (t.state = WorkflowStateCreated ∨ t.state = WorkflowStateRunning)))) ∧
    (∀ (newRunID : String) (env : Nat → TerminateAttemptEnv) (ms p : MutableState),
      (terminateAndStartWorkflow newRunID env ms).committedPrior = some p →
      p.closeStatus = WorkflowCloseStatusTerminated ∧
      p.state = WorkflowStateCompleted ∧
      p.events.getLast? = some (.workflowExecutionTerminated TerminateIfRunningReason
        ("New runID: " ++ newRunID) IdentityHistoryService)) ∧
    (∀ (newRunID : String) (env env' : Nat → TerminateAttemptEnv) (ms : MutableState),
      (∀ i, i < ConditionalRetryCount → env i = env' i) →
      terminateAndStartWorkflow newRunID env ms = terminateAndStartWorkflow newRunID env' ms) := by
  refine ⟨?_, ?_, ?_⟩
  · intro requestID workflowID policy curVersion t hreq hver
    have hred : handleStartCreationAlreadyStarted requestID false policy curVersion workflowID t =
        (if shouldTerminateAndStart policy t.state then
          (.terminateAndStart t.runID : StartErrorOutcome)
        else
          match applyWorkflowIDReusePolicyHelper
              t.startRequestID t.runID t.state t.closeStatus workflowID policy with
          | .error e => .returnError e
          | .ok _ => .retryCreateAsReuse t.runID t.lastWriteVersion) := by
      simp only [handleStartCreationAlreadyStarted, if_neg hreq, if_neg hver,
        Bool.false_eq_true, if_false]
    rw [hred]
    constructor
    · intro heq
      by_cases hst : shouldTerminateAndStart policy t.state = true
      · have hsp := hst
        simp only [shouldTerminateAndStart, Bool.and_eq_true, Bool.or_eq_true,
          decide_eq_true_eq] at hsp
        exact ⟨hsp.1, hsp.2.elim (fun h => Or.inr h) (fun h => Or.inl h)⟩
      · rw [if_neg hst] at heq
        rcases happly : applyWorkflowIDReusePolicyHelper
            t.startRequestID t.runID t.state t.closeStatus workflowID policy with e | u <;>
          rw [happly] at heq <;> simp at heq
    · intro hrhs
      have hst : shouldTerminateAndStart policy t.state = true := by
        simp only [shouldTerminateAndStart, Bool.and_eq_true, Bool.or_eq_true,
          decide_eq_true_eq]
        exact ⟨hrhs.1, hrhs.2.elim (fun h => Or.inr h) (fun h => Or.inl h)⟩
      rw [if_pos hst]
  · intro newRunID env ms p h
    obtain ⟨ms0, rfl⟩ :=
      terminateAndStartLoop_committedPrior newRunID env ConditionalRetryCount 0 ms p h
    refine ⟨rfl, rfl, ?_⟩
    show (ms0.events ++ [HistoryEvent.workflowExecutionTerminated TerminateIfRunningReason
      (getTerminateIfRunningDetails newRunID) IdentityHistoryService]).getLast? = _
    rw [List.getLast?_concat]
    rfl
  · intro newRunID env env' ms hag
    exact terminateAndStartLoop_env_agree newRunID env env' ConditionalRetryCount 0 ms
      (fun i _ h2 => hag i (by omega))

/-- A persistence already-started payload for a running prior run. -/
def tPriorC3 : PersistAlreadyStartedError :=
  { startRequestID := "other-request", runID := "run-prior", state := 1, closeStatus := 0,
    lastWriteVersion := 0 }

/-- Claim C3 witness: a TerminateIfRunning Start colliding with a running
prior run takes the terminate-and-start path. -/
theorem claim_C3_witness :
    handleStartCreationAlreadyStarted "req-2" false WorkflowIDReusePolicyTerminateIfRunning 0
      "wf" tPriorC3 = .terminateAndStart "run-prior" :=
  (claim_C3_terminate_if_running.1 "req-2" "wf" WorkflowIDReusePolicyTerminateIfRunning 0
    tPriorC3 (by decide) (by decide)).mpr ⟨rfl, Or.inr rfl⟩

/-- A pending started activity used by the C5 artifacts. -/
def aiC5 : ActivityInfo :=
  { scheduleID := 5, startedID := 7, attempt := 2, cancelRequested := false, details := "",
    lastHeartBeatUpdatedTime := 0, startedTime := 3, taskList := "tl", activityID := "act" }

/-- A running mutable state holding aiC5. -/
def msC5 : MutableState :=
  { state := WorkflowStateRunning, closeStatus := WorkflowCloseStatusNone, nextEventID := 10,
    events := [], activityInfos := [aiC5], hasPendingDecision := false,
    hasInFlightDecision := false, bufferedQueryCount := 0 }

/-- A by-activity-id task token whose schedule attempt does not match the
activity's current attempt. -/
def tokenC5 : TaskToken :=
  { workflowID := "w", runID := "r", scheduleID := EmptyEventID, scheduleAttempt := 0,
    activityID := "act", workflowType := "wt", activityType := "at" }

/-- Claim C5 counterexample: a by-activity-id RespondActivityTaskCompleted
(the token carries the EmptyEventID schedule-id sentinel) whose schedule
attempt (0) differs from the activity's current attempt (2) does not fail
with ActivityTaskNotFound — the attempt check is guarded by the token
carrying a schedule id, so the call completes the activity and mutates
state. -/
theorem claim_C5_counterexample :
    msC5.getActivityInfo 5 = some aiC5 ∧
    tokenC5.scheduleAttempt ≠ aiC5.attempt ∧
    respondActivityTaskCompletedAction tokenC5 msC5 =
      .ok (msC5.addActivityTaskCompletedEvent 5 7) :=
  ⟨rfl, by decide, rfl⟩

/-- Claim C5 (amended): for every RespondActivityTaskCompleted: a
non-running workflow fails with AlreadyCompleted; a missing activity whose
schedule id is at least the next-event id returns the internal StaleState
sentinel; and a request that carries a schedule id (not the by-activity-id
sentinel) whose schedule attempt does not match the activity's current
attempt fails with ActivityTaskNotFound, as do requests for missing (with
schedule id below the next-event id) or not-yet-started activities — in
each failing case the action returns an error, so the driver commits
nothing and mutable state is unchanged. A by-activity-id request skips the
attempt check (see the counterexample). -/
theorem claim_C5_respond_activity_completed (token : TaskToken) (ms : MutableState) :
    (ms.isWorkflowExecutionRunning = false →
      respondActivityTaskCompletedAction token ms = .error .alreadyCompleted) ∧
    (ms.isWorkflowExecutionRunning = true →
     token.scheduleID ≠ EmptyEventID →
     ms.getActivityInfo token.scheduleID = none →
     token.scheduleID ≥ ms.nextEventID →
      respondActivityTaskCompletedAction token ms = .error .staleState) ∧
    (∀ ai, ms.isWorkflowExecutionRunning = true →
     token.scheduleID ≠ EmptyEventID →
     ms.getActivityInfo token.scheduleID = some ai →
     token.scheduleAttempt ≠ ai.attempt →
      respondActivityTaskCompletedAction token ms = .error .activityTaskNotFound) ∧
    (ms.isWorkflowExecutionRunning = true →
     token.scheduleID ≠ EmptyEventID →
     ms.getActivityInfo token.scheduleID = none →
     token.scheduleID < ms.nextEventID →
      respondActivityTaskCompletedAction token ms = .error .activityTaskNotFound) ∧
    (∀ ai, ms.isWorkflowExecutionRunning = true →
     token.scheduleID ≠ EmptyEventID →
     ms.getActivityInfo token.scheduleID = some ai →
     ai.startedID = EmptyEventID →
      respondActivityTaskCompletedAction token ms = .error .activityTaskNotFound) := by
  refine ⟨?_, ?_, ?_, ?_, ?_⟩
  · intro hrun
    simp [respondActivityTaskCompletedAction, activityGuard, hrun]
  · intro hrun hsid hai hge
    simp [respondActivityTaskCompletedAction, activityGuard, hrun, hsid, hai, hge]
  · intro ai hrun hsid hai hmm
    simp [respondActivityTaskCompletedAction, activityGuard, hrun, hsid, hai, hmm]
  · intro hrun hsid hai hlt
    have hge : ¬ token.scheduleID ≥ ms.nextEventID := not_le.mpr hlt
    simp [respondActivityTaskCompletedAction, activityGuard, hrun, hsid, hai, hge]
  · intro ai hrun hsid hai hstart
    simp [respondActivityTaskCompletedAction, activityGuard, hrun, hsid, hai, hstart]

/-- Claim C5 witness: a schedule-attempt mismatch on a token carrying a
schedule id fails with ActivityTaskNotFound. -/
theorem claim_C5_witness :
    respondActivityTaskCompletedAction
      { workflowID := "w", runID := "r", scheduleID := 5, scheduleAttempt := 1,
        activityID := "act", workflowType := "wt", activityType := "at" } msC5
      = .error .activityTaskNotFound :=
  (claim_C5_respond_activity_completed _ msC5).2.2.1 aiC5 rfl (by decide) rfl (by decide)

/-- find? commutes with mapping a function that does not change the
predicate. -/
lemma find?_map_congr {α : Type} (p : α → Bool) (f : α → α)
    (hp : ∀ a, p (f a) = p a) :
    ∀ l : List α, (l.map f).find? p = (l.find? p).map f := by
  intro l
  induction l with
  | nil => rfl
  | cons a l ih =>
      by_cases ha : p a = true
      · rw [List.map_cons, List.find?_cons_of_pos _ (by rw [hp]; exact ha),
          List.find?_cons_of_pos _ ha]
        rfl
      · rw [List.map_cons, List.find?_cons_of_neg _ (by rw [hp]; exact ha),
          List.find?_cons_of_neg _ ha]
        exact ih

/-- Successful activity guard: the workflow is running, the activity is
pending under the resolved schedule id, and it has started. -/
lemma activityGuard_ok_inv (token : TaskToken) (ms : MutableState) (sid : Int)
    (ai : ActivityInfo) (h : activityGuard token ms = .ok (sid, ai)) :
    ms.isWorkflowExecutionRunning = true ∧
    ms.getActivityInfo sid = some ai ∧
    ai.startedID ≠ EmptyEventID := by
  unfold activityGuard at h
  by_cases hrun : ms.isWorkflowExecutionRunning = false
  · rw [if_pos hrun] at h
    simp at h
  · rw [if_neg hrun] at h
    have hrun2 : ms.isWorkflowExecutionRunning = true := by
      cases hb : ms.isWorkflowExecutionRunning
      · exact absurd hb hrun
      · rfl
    refine ⟨hrun2, ?_⟩
    rcases hres : (if token.scheduleID = EmptyEventID
        then getScheduleID token.activityID ms
        else .ok token.scheduleID) with e | sid0
    · rw [hres] at h
      simp at h
    · rw [hres] at h
      dsimp only at h
      rcases hai : ms.getActivityInfo sid0 with _ | ai0 <;> rw [hai] at h <;> dsimp only at h
      · split_ifs at h
      · by_cases hcond : (ai0.startedID = EmptyEventID ∨
            (token.scheduleID ≠ EmptyEventID ∧ token.scheduleAttempt ≠ ai0.attempt))
        · rw [if_pos hcond] at h
          simp at h
        · rw [if_neg hcond] at h
          simp only [Except.ok.injEq, Prod.mk.injEq] at h
          obtain ⟨hsid, hai2⟩ := h
          subst hsid
          subst hai2
          exact ⟨hai, fun hq => hcond (Or.inl hq)⟩

/-- Claim C9: RecordActivityTaskHeartbeat never transitions workflow state
and appends no history event: on every successful heartbeat, the workflow
state, close status, next-event id, events and decision bookkeeping are
unchanged, the only activity change is the heartbeated activity's progress
details and last-heartbeat time, every other activity is untouched, and the
response CancelRequested equals the activity's cancel-requested flag at the
time of the call. -/
theorem claim_C9_heartbeat_frame (token : TaskToken) (details : String) (now : Int)
    (ms ms2 : MutableState) (cancelRequested : Bool)
    (h : recordActivityTaskHeartbeatAction token details now ms = .ok (ms2, cancelRequested)) :
    ms2.events = ms.events ∧
    ms2.state = ms.state ∧
    ms2.closeStatus = ms.closeStatus ∧
    ms2.nextEventID = ms.nextEventID ∧
    ms2.hasPendingDecision = ms.hasPendingDecision ∧
    ms2.hasInFlightDecision = ms.hasInFlightDecision ∧
    ms2.bufferedQueryCount = ms.bufferedQueryCount ∧
    ∃ sid ai, ms.getActivityInfo sid = some ai ∧
      ai.startedID ≠ EmptyEventID ∧
      cancelRequested = ai.cancelRequested ∧
      ms2.getActivityInfo sid =
        some { ai with details := details, lastHeartBeatUpdatedTime := now } ∧
      (∀ sid2, sid2 ≠ sid → ms2.getActivityInfo sid2 = ms.getActivityInfo sid2) := by
  unfold recordActivityTaskHeartbeatAction at h
  rcases hg : activityGuard token ms with e | p <;> rw [hg] at h
  · simp at h
  · obtain ⟨sid, ai⟩ := p
    simp only [Except.ok.injEq, Prod.mk.injEq] at h
    obtain ⟨hms, hcr⟩ := h
    subst hms
    obtain ⟨hrun, hai, hstart⟩ := activityGuard_ok_inv token ms sid ai hg
    refine ⟨rfl, rfl, rfl, rfl, rfl, rfl, rfl, sid, ai, hai, hstart, hcr.symm, ?_, ?_⟩
    · show (ms.activityInfos.map _).find? _ = _
      rw [find?_map_congr _ _ ?hpres]
      case hpres =>
        intro a
        by_cases hsc : a.scheduleID = sid <;> simp [hsc]
      rw [show ms.activityInfos.find? (fun a => a.scheduleID = sid) = some ai from hai]
      have hps := List.find?_some hai
      simp only [decide_eq_true_eq] at hps
      simp [hps]
    · intro sid2 hne
      show (ms.activityInfos.map _).find? _ = ms.getActivityInfo sid2
      rw [find?_map_congr _ _ ?hpres2]
      case hpres2 =>
        intro a
        by_cases hsc : a.scheduleID = sid <;> simp [hsc]
      rcases hfind : ms.activityInfos.find? (fun a => a.scheduleID = sid2) with _ | b
      · simp [MutableState.getActivityInfo, hfind]
      · have hb := List.find?_some hfind
        simp only [decide_eq_true_eq] at hb
        have hbne : ¬ b.scheduleID = sid := by
          rw [hb]
          exact hne
        simp [MutableState.getActivityInfo, hfind, hbne]

/-- A started activity with a pending cancel request, used by the C9
witness. -/
def aiC9 : ActivityInfo :=
  { scheduleID := 5, startedID := 7, attempt := 2, cancelRequested := true, details := "old",
    lastHeartBeatUpdatedTime := 1, startedTime := 3, taskList := "tl", activityID := "act" }

/-- A running mutable state holding aiC9. -/
def msC9 : MutableState :=
  { state := WorkflowStateRunning, closeStatus := WorkflowCloseStatusNone, nextEventID := 10,
    events := [.workflowExecutionStarted], activityInfos := [aiC9],
    hasPendingDecision := true, hasInFlightDecision := false, bufferedQueryCount := 0 }

/-- Claim C9 witness: a concrete heartbeat leaves the history events
unchanged. -/
theorem claim_C9_witness :
    (msC9.updateActivityProgress 5 "new-progress" 42).events = msC9.events :=
  (claim_C9_heartbeat_frame
    { workflowID := "w", runID := "r", scheduleID := 5, scheduleAttempt := 2,
      activityID := "act", workflowType := "wt", activityType := "at" }
    "new-progress" 42 msC9 (msC9.updateActivityProgress 5 "new-progress" 42) true rfl).1

/-- Claim C6: QueryWorkflow dispatches directly through matching exactly
when the domain is not active, the workflow is not running, the requested
consistency level is eventual, or there is no pending and no in-flight
decision; otherwise the query is buffered, failing with
ConsistentQueryBufferExceeded exactly when at least MaxBufferedQueryCount
queries are already buffered on the run's registry. -/
theorem claim_C6_query_routing (domainActive : Bool) (consistencyLevel : Int)
    (ms : MutableState) (maxBufferedQueryCount : Nat) :
    (queryWorkflowRouting domainActive consistencyLevel ms maxBufferedQueryCount = .direct ↔
      (domainActive = false ∨ ms.isWorkflowExecutionRunning = false ∨
       consistencyLevel = QueryConsistencyLevelEventual ∨
       (ms.hasPendingDecision = false ∧ ms.hasInFlightDecision = false))) ∧
    (queryWorkflowRouting domainActive consistencyLevel ms maxBufferedQueryCount =
        .bufferExceeded ↔
      (¬ (domainActive = false ∨ ms.isWorkflowExecutionRunning = false ∨
          consistencyLevel = QueryConsistencyLevelEventual ∨
          (ms.hasPendingDecision = false ∧ ms.hasInFlightDecision = false)) ∧
        ms.bufferedQueryCount ≥ maxBufferedQueryCount)) ∧
    (queryWorkflowRouting domainActive consistencyLevel ms maxBufferedQueryCount = .buffered ↔
      (¬ (domainActive = false ∨ ms.isWorkflowExecutionRunning = false ∨
          consistencyLevel = QueryConsistencyLevelEventual ∨
          (ms.hasPendingDecision = false ∧ ms.hasInFlightDecision = false)) ∧
        ms.bufferedQueryCount < maxBufferedQueryCount)) := by
  have hsafe : safeToDispatchDirectly domainActive consistencyLevel ms = true ↔
      (domainActive = false ∨ ms.isWorkflowExecutionRunning = false ∨
       consistencyLevel = QueryConsistencyLevelEventual ∨
       (ms.hasPendingDecision = false ∧ ms.hasInFlightDecision = false)) := by
    simp only [safeToDispatchDirectly, Bool.or_eq_true, Bool.and_eq_true,
      Bool.not_eq_true', decide_eq_true_eq]
    tauto
  by_cases hs : safeToDispatchDirectly domainActive consistencyLevel ms = true
  · refine ⟨?_, ?_, ?_⟩ <;>
      simp [queryWorkflowRouting, hs, hsafe.mp hs]
  · have hns := hsafe.not.mp hs
    by_cases hb : ms.bufferedQueryCount ≥ maxBufferedQueryCount
    · refine ⟨?_, ?_, ?_⟩ <;>
        simp [queryWorkflowRouting, hs, hns, hb, not_lt.mpr hb]
    · refine ⟨?_, ?_, ?_⟩ <;>
        simp [queryWorkflowRouting, hs, hns, hb, not_le.mp hb]

/-- Claim C7: GetMutableState fails with CurrentBranchChanged whenever the
caller supplies a branch token different from the run's current one; and
with a matching (or absent) token it returns the current snapshot
immediately, without subscribing to history-event notifications, whenever
the caller-supplied expected-next-event id is below the current next-event
id or the workflow is not running. -/
theorem claim_C7_get_mutable_state (requestBranchToken : Option (List Nat))
    (expectedNextEventID : Int) (resp : MutableStateSnapshot) :
    (∀ t, requestBranchToken = some t → t ≠ resp.currentBranchToken →
      getMutableStatePrePollRoute requestBranchToken expectedNextEventID resp =
        .err (.currentBranchChanged resp.currentBranchToken)) ∧
    ((requestBranchToken = none ∨ requestBranchToken = some resp.currentBranchToken) →
      (expectedNextEventID ≠ 0 → expectedNextEventID < resp.nextEventID →
        getMutableStatePrePollRoute requestBranchToken expectedNextEventID resp =
          .immediate resp) ∧
      (resp.isWorkflowRunning = false →
        getMutableStatePrePollRoute requestBranchToken expectedNextEventID resp =
          .immediate resp)) := by
  constructor
  · intro t ht hne
    subst ht
    simp [getMutableStatePrePollRoute, hne]
  · intro htok
    have hmatch : getMutableStatePrePollRoute requestBranchToken expectedNextEventID resp =
        (if (if expectedNextEventID ≠ 0 then expectedNextEventID else FirstEventID) ≥
            resp.nextEventID ∧ resp.isWorkflowRunning = true
         then .poll (if expectedNextEventID ≠ 0 then expectedNextEventID else FirstEventID)
         else .immediate resp) := by
      rcases htok with h | h <;> subst h <;>
        simp [getMutableStatePrePollRoute]
    constructor
    · intro hnz hlt
      rw [hmatch, if_neg]
      intro hcontra
      rw [if_pos hnz] at hcontra
      omega
    · intro hnr
      rw [hmatch, if_neg]
      intro hcontra
      rw [hnr] at hcontra
      simp at hcontra

/-- A snapshot of a running workflow at next-event id 10, used by the C7
witness. -/
def respC7 : MutableStateSnapshot :=
  { runID := "run-1", nextEventID := 10, isWorkflowRunning := true,
    currentBranchToken := [1, 2] }

/-- Claim C7 witness: a caller with no branch token, expectation 3 and
current next-event id 10 gets the snapshot immediately. -/
theorem claim_C7_witness :
    getMutableStatePrePollRoute none 3 respC7 = .immediate respC7 :=
  ((claim_C7_get_mutable_state none 3 respC7).2 (Or.inl rfl)).1 (by decide) (by decide)

/-- A local (non-global) changed domain with notification version 5. -/
def domC8a : DomainCacheEntry :=
  { id := "dom-a", isGlobalDomain := false, notificationVersion := 5,
    failoverNotificationVersion := 0, failoverVersion := 0,
    previousFailoverVersion := -1, activeClusterName := "cluster-1" }

/-- A local (non-global) changed domain with notification version 3. -/
def domC8b : DomainCacheEntry :=
  { id := "dom-b", isGlobalDomain := false, notificationVersion := 3,
    failoverNotificationVersion := 0, failoverVersion := 0,
    previousFailoverVersion := -1, activeClusterName := "cluster-1" }

/-- Claim C8 counterexample: on a successful commit of the batch
[domC8a, domC8b] the shard domain-notification version becomes the LAST
domain's notification version plus 1 (3 + 1 = 4), not the maximum over the
batch plus 1 (5 + 1 = 6). -/
theorem claim_C8_counterexample :
    (domainFailoverCommitCallback 0 "cluster-1" (fun _ => "cluster-1") true
      [domC8a, domC8b]).newShardNotificationVersion = some 4 ∧
    max domC8a.notificationVersion domC8b.notificationVersion + 1 = 6 ∧
    ((4 : Int) ≠ 6) := by
  refine ⟨rfl, by decide, by decide⟩

/-- Claim C8 (amended): for every non-empty batch of changed domains,
failover-marker tasks are built exactly for the global domains whose
failover-notification version is at least the shard's recorded version,
whose active cluster differs from this cluster, and whose previous failover
version is set (not the initial sentinel) and maps to this cluster; when
there are marker tasks and submitting them to the replication queue fails,
the callback returns without advancing the shard's domain-notification
version; otherwise it updates that version to the LAST changed domain's
notification version plus 1 — equal to the maximum plus 1 only when the
batch is ordered by notification version. -/
theorem claim_C8_failover_commit (shardNotificationVersion : Int)
    (currentClusterName : String) (clusterNameForFailoverVersion : Int → String)
    (replicateSucceeds : Bool) (nextDomains : List DomainCacheEntry) :
    (∀ m, m ∈ (domainFailoverCommitCallback shardNotificationVersion currentClusterName
        clusterNameForFailoverVersion replicateSucceeds nextDomains).markers ↔
      ∃ d ∈ nextDomains,
        failoverMarkerCondition shardNotificationVersion currentClusterName
          clusterNameForFailoverVersion d = true ∧
        m = { version := d.failoverVersion, domainID := d.id }) ∧
    (nextDomains = [] →
      domainFailoverCommitCallback shardNotificationVersion currentClusterName
        clusterNameForFailoverVersion replicateSucceeds nextDomains =
        { markers := [], newShardNotificationVersion := none }) ∧
    ((domainFailoverCommitCallback shardNotificationVersion currentClusterName
        clusterNameForFailoverVersion replicateSucceeds nextDomains).markers ≠ [] →
      replicateSucceeds = false →
      (domainFailoverCommitCallback shardNotificationVersion currentClusterName
        clusterNameForFailoverVersion replicateSucceeds nextDomains).newShardNotificationVersion
        = none) ∧
    (∀ d, nextDomains.getLast? = some d →
      replicateSucceeds = true →
      (domainFailoverCommitCallback shardNotificationVersion currentClusterName
        clusterNameForFailoverVersion replicateSucceeds nextDomains).newShardNotificationVersion
        = some (d.notificationVersion + 1)) ∧
    (∀ d, nextDomains.getLast? = some d →
      (domainFailoverCommitCallback shardNotificationVersion currentClusterName
        clusterNameForFailoverVersion replicateSucceeds nextDomains).markers = [] →
      (domainFailoverCommitCallback shardNotificationVersion currentClusterName
        clusterNameForFailoverVersion replicateSucceeds nextDomains).newShardNotificationVersion
        = some (d.notificationVersion + 1)) := by
  refine ⟨?_, ?_, ?_, ?_, ?_⟩
  · intro m
    rcases hlast : nextDomains.getLast? with _ | d
    · have hnil : nextDomains = [] := by
        simpa using hlast
      subst hnil
      simp [domainFailoverCommitCallback]
    · have hmk : (domainFailoverCommitCallback shardNotificationVersion currentClusterName
          clusterNameForFailoverVersion replicateSucceeds nextDomains).markers =
          buildFailoverMarkerTasks shardNotificationVersion currentClusterName
            clusterNameForFailoverVersion nextDomains := by
        simp only [domainFailoverCommitCallback, hlast]
        split_ifs <;> rfl
      rw [hmk]
      simp only [buildFailoverMarkerTasks, List.mem_filterMap]
      constructor
      · rintro ⟨d2, hd2, hf⟩
        by_cases hc : failoverMarkerCondition shardNotificationVersion currentClusterName
            clusterNameForFailoverVersion d2 = true
        · rw [if_pos hc] at hf
          exact ⟨d2, hd2, hc, (Option.some.injEq _ _ ▸ hf).symm⟩
        · rw [if_neg hc] at hf
          exact absurd hf (by simp)
      · rintro ⟨d2, hd2, hc, rfl⟩
        exact ⟨d2, hd2, by rw [if_pos hc]⟩
  · intro hnil
    subst hnil
    rfl
  · intro hmk hrep
    subst hrep
    rcases hlast : nextDomains.getLast? with _ | d
    · have hnil : nextDomains = [] := by
        simpa using hlast
      subst hnil
      rfl
    · simp only [domainFailoverCommitCallback, hlast] at hmk ⊢
      have hne : buildFailoverMarkerTasks shardNotificationVersion currentClusterName
          clusterNameForFailoverVersion nextDomains ≠ [] := by
        intro hb
        apply hmk
        split_ifs <;> exact hb
      rw [if_pos ⟨List.length_pos.mpr hne, trivial⟩]
  · intro d hlast hrep
    subst hrep
    simp only [domainFailoverCommitCallback, hlast]
    rw [if_neg (fun hcc => absurd hcc.2 (by simp))]
  · intro d hlast hmk
    simp only [domainFailoverCommitCallback, hlast] at hmk ⊢
    have hnil : buildFailoverMarkerTasks shardNotificationVersion currentClusterName
        clusterNameForFailoverVersion nextDomains = [] := by
      by_cases hc : (buildFailoverMarkerTasks shardNotificationVersion currentClusterName
            clusterNameForFailoverVersion nextDomains).length > 0 ∧
          replicateSucceeds = false
      · rw [if_pos hc] at hmk
        exact hmk
      · rw [if_neg hc] at hmk
        exact hmk
    rw [if_neg (fun hcc => by rw [hnil] at hcc; simp at hcc)]

/-- A global domain that failed away from this cluster, used by the C8
witness. -/
def domC8c : DomainCacheEntry :=
  { id := "dom-c", isGlobalDomain := true, notificationVersion := 9,
    failoverNotificationVersion := 4, failoverVersion := 12,
    previousFailoverVersion := 2, activeClusterName := "cluster-2" }

/-- Claim C8 witness: a successful commit over the one-domain batch
[domC8c] produces its failover marker and advances the shard version to
9 + 1. -/
theorem claim_C8_witness :
    ({ version := 12, domainID := "dom-c" } : FailoverMarkerTask) ∈
      (domainFailoverCommitCallback 0 "cluster-1" (fun _ => "cluster-1") true
        [domC8c]).markers ∧
    (domainFailoverCommitCallback 0 "cluster-1" (fun _ => "cluster-1") true
      [domC8c]).newShardNotificationVersion = some (domC8c.notificationVersion + 1) :=
  ⟨((claim_C8_failover_commit 0 "cluster-1" (fun _ => "cluster-1") true [domC8c]).1
      { version := 12, domainID := "dom-c" }).mpr
    ⟨domC8c, by simp, by decide, by decide⟩,
   (claim_C8_failover_commit 0 "cluster-1" (fun _ => "cluster-1") true
     [domC8c]).2.2.2.1 domC8c rfl rfl⟩

/-- Claim C10 counterexample: with a one-second delay start and the maximal
int32 retry expiration interval 2147483647, the Go int32 sum
expirationInterval + firstDecisionTaskBackoffSeconds wraps to -2147483648,
so the expiration timestamp is now minus about 68 years — not now plus
interval plus backoff as the claim states. -/
theorem claim_C10_counterexample :
    createHistoryStartWorkflowRequest 1 0 (some 2147483647) 0 =
      .ok { firstDecisionTaskBackoffSeconds := 1,
            expirationTimestamp := some (-2147483648000000000) } ∧
    ((-2147483648000000000 : Int) ≠
      roundToMillisecond ((0 : Int) + (2147483647 + 1) * 1000000000)) :=
  ⟨rfl, by decide⟩

/-- The wrap-around is the identity exactly on values already in int32
range. -/
lemma int32Wrap_eq_self (x : Int) (h1 : -2147483648 ≤ x) (h2 : x < 2147483648) :
    int32Wrap x = x := by
  unfold int32Wrap
  have h3 : (x + 2147483648) % 4294967296 = x + 2147483648 :=
    Int.emod_eq_of_lt (by omega) (by omega)
  omega

/-- Claim C10 (amended): CreateHistoryStartWorkflowRequest fails with the
BadRequest error "Conflicting inputs: both DelayStartSeconds and Cron
schedule is set" exactly when DelayStartSeconds is positive and the cron
schedule yields a positive first-decision backoff; on success the
first-decision backoff is DelayStartSeconds when positive and the cron
backoff otherwise; and with a retry policy carrying a positive expiration
interval the expiration timestamp is now plus the int32 wrap-around sum of
that interval and the chosen backoff in seconds, rounded to milliseconds —
which equals now plus that interval plus the chosen backoff exactly when
the sum fits in int32 (both summands are client-supplied int32 fields with
no upper bound from validation, see the counterexample). -/
theorem claim_C10_create_start_request (delayStartSeconds cronBackoffSeconds : Int)
    (retryExpirationIntervalSeconds : Option Int) (nowUnixNano : Int) :
    (createHistoryStartWorkflowRequest delayStartSeconds cronBackoffSeconds
        retryExpirationIntervalSeconds nowUnixNano = .error ErrDelayStartSeconds ↔
      (delayStartSeconds > 0 ∧ cronBackoffSeconds > 0)) ∧
    (∀ res, createHistoryStartWorkflowRequest delayStartSeconds cronBackoffSeconds
        retryExpirationIntervalSeconds nowUnixNano = .ok res →
      (delayStartSeconds > 0 → res.firstDecisionTaskBackoffSeconds = delayStartSeconds) ∧
      (¬ delayStartSeconds > 0 → res.firstDecisionTaskBackoffSeconds = cronBackoffSeconds) ∧
      (∀ v, retryExpirationIntervalSeconds = some v → v > 0 →
        res.expirationTimestamp = some (roundToMillisecond (nowUnixNano +
          int32Wrap (v + res.firstDecisionTaskBackoffSeconds) * 1000000000))) ∧
      (∀ v, retryExpirationIntervalSeconds = some v → v > 0 →
        -2147483648 ≤ v + res.firstDecisionTaskBackoffSeconds →
        v + res.firstDecisionTaskBackoffSeconds < 2147483648 →
        res.expirationTimestamp = some (roundToMillisecond (nowUnixNano +
          (v + res.firstDecisionTaskBackoffSeconds) * 1000000000))) ∧
      (retryExpirationIntervalSeconds = none → res.expirationTimestamp = none)) := by
  by_cases hboth : delayStartSeconds > 0 ∧ cronBackoffSeconds > 0
  · constructor
    · simp [createHistoryStartWorkflowRequest, hboth]
    · intro res hres
      rw [createHistoryStartWorkflowRequest, if_pos hboth] at hres
      exact absurd hres (by simp)
  · constructor
    · rw [createHistoryStartWorkflowRequest, if_neg hboth]
      constructor
      · intro hcontra
        exact absurd hcontra (by simp)
      · intro hc
        exact absurd hc hboth
    · intro res hres
      rw [createHistoryStartWorkflowRequest, if_neg hboth] at hres
      simp only [Except.ok.injEq] at hres
      subst hres
      refine ⟨?_, ?_, ?_, ?_, ?_⟩
      · intro hd
        simp [hd]
      · intro hd
        simp [hd]
      · intro v hv hvpos
        subst hv
        simp [if_pos hvpos]
      · intro v hv hvpos hlo hhi
        subst hv
        simp only [if_pos hvpos]
        rw [int32Wrap_eq_self _ hlo hhi]
      · intro hnone
        subst hnone
        rfl

/-- Claim C10 witness: no delay, a 5-second cron backoff and a 10-second
retry expiration yield backoff 5 and, the int32 sum 15 not overflowing,
expiration now + 15 s rounded to milliseconds. -/
theorem claim_C10_witness :
    ({ firstDecisionTaskBackoffSeconds := 5, expirationTimestamp := some 15000000000 } :
        HistoryStartRequestFields).expirationTimestamp =
      some (roundToMillisecond (0 + (10 + 5) * 1000000000)) :=
  ((claim_C10_create_start_request 0 5 (some 10) 0).2
    { firstDecisionTaskBackoffSeconds := 5, expirationTimestamp := some 15000000000 }
    rfl).2.2.2.1 10 rfl (by decide) (by decide) (by decide)

end Cadence
